import Mathlib

/-
Verification of the VAgent converter core against its specification.

Shallow embedding of the safety-relevant components of the backend:
the mode-controller state machine (backend/app/core/mode_control.py),
the soft sensor (backend/app/data/soft_sensor.py),
the Kalman filter and the kinetics derivative engine
(backend/app/tools/kinetics_simulator.py),
the real-time simulator physics step (backend/app/data/simulator.py),
and the equilibrium solver (backend/app/tools/equilibrium_model.py).

Numbers are embedded as exact rationals; the Python code computes with
floats, so all statements are about the exact-arithmetic semantics of
the same formulas.
-/

namespace VAgent

/- ## Mode controller (backend/app/core/mode_control.py) -/

/-- The three system modes of `SystemMode`. -/
inductive SystemMode where
  | simulation
  | validation
  | production
deriving DecidableEq, Repr

/-- Which concrete reader class a mode binds (`switch_mode`, step 3). -/
inductive ReaderKind where
  | simulationDataReader
  | validationDataReader
deriving DecidableEq, Repr

/-- Which concrete writer class a mode binds (`switch_mode`, step 3). -/
inductive WriterKind where
  | simulationControlWriter
  | validationControlWriter
  | productionControlWriter
deriving DecidableEq, Repr

/-- One committed transition, `ModeSwitchRecord`.  The wall-clock
`datetime.utcnow()` timestamp is modelled as a rational. -/
structure ModeSwitchRecord where
  timestamp : ℚ
  user : String
  from_mode : SystemMode
  to_mode : SystemMode
  reason : String
deriving DecidableEq, Repr

/-- The mutable fields of `ModeController` that `switch_mode` reads or
writes: current mode, the bound reader/writer pair, the append-only
audit log, the last committed switch time and the cooldown. -/
structure ModeController where
  mode : SystemMode
  reader : ReaderKind
  writer : WriterKind
  audit_log : List ModeSwitchRecord
  last_switch_time : ℚ
  switch_cooldown : ℚ
deriving DecidableEq, Repr

/-- The controller as constructed by `ModeController.__init__`:
simulation mode, simulation reader/writer, empty audit log,
`_last_switch_time = 0.0`, `_switch_cooldown = 1.0`. -/
def ModeController.init : ModeController :=
  { mode := .simulation
    reader := .simulationDataReader
    writer := .simulationControlWriter
    audit_log := []
    last_switch_time := 0
    switch_cooldown := 1 }

/-- The three exception classes `switch_mode` can raise:
`RuntimeError` (rate limit), `ValueError` (illegal transition),
`PermissionError` (bad production token). -/
inductive SwitchError where
  | rateLimited
  | illegalTransition
  | permissionDenied
deriving DecidableEq, Repr

/-- Decidable equality of call outcomes, used to evaluate the
embedding at concrete inputs. -/
instance : DecidableEq (Except SwitchError Unit) := fun a b =>
  match a, b with
  | .ok (), .ok () => isTrue rfl
  | .error e₁, .error e₂ =>
    if h : e₁ = e₂ then isTrue (by rw [h]) else isFalse (by
      intro hc; cases hc; exact h rfl)
  | .ok (), .error _ => isFalse (by intro hc; cases hc)
  | .error _, .ok () => isFalse (by intro hc; cases hc)

/-- The provisioned production token checked in `switch_mode`, step 2. -/
def secureProductionToken : String := "SECURE_PRODUCTION_TOKEN_2026"

/-- Reader bound to each mode by `switch_mode`, step 3. -/
def readerFor : SystemMode → ReaderKind
  | .simulation => .simulationDataReader
  | .validation => .validationDataReader
  | .production => .validationDataReader

/-- Writer bound to each mode by `switch_mode`, step 3. -/
def writerFor : SystemMode → WriterKind
  | .simulation => .simulationControlWriter
  | .validation => .validationControlWriter
  | .production => .productionControlWriter

/-- `ModeController.switch_mode`.  `current_time` is the event-loop
time used for rate limiting, `wall_time` the `datetime.utcnow()` value
stored in the audit record.  The result pairs the outcome (normal
return or raised exception) with the post-call controller state; every
`raise` in the source happens before any field of the controller is
mutated, so the state on an error path is the input state. -/
def switch_mode (c : ModeController) (current_time wall_time : ℚ)
    (new_mode : SystemMode) (user : String) (auth_token : String)
    (reason : String) : Except SwitchError Unit × ModeController :=
  if current_time - c.last_switch_time < c.switch_cooldown then
    (.error .rateLimited, c)
  else if new_mode = c.mode then
    (.ok (), c)
  else if c.mode = .simulation ∧ new_mode = .production then
    (.error .illegalTransition, c)
  else if new_mode = .production ∧ auth_token ≠ secureProductionToken then
    (.error .permissionDenied, c)
  else
    (.ok (),
      { c with
        mode := new_mode
        reader := readerFor new_mode
        writer := writerFor new_mode
        audit_log := c.audit_log ++
          [{ timestamp := wall_time, user := user, from_mode := c.mode
             to_mode := new_mode, reason := reason }]
        last_switch_time := current_time })

/-- Claim C2: from Simulation, a `switch_mode` call targeting
Production never commits: whatever the credential, actor and reason,
the call leaves the controller untouched and is rejected — with the
illegal-transition error whenever the rate limiter does not fire
first, i.e. once the cooldown since the last committed switch has
elapsed. -/
theorem sim_to_prod_always_rejected (c : ModeController)
    (t w : ℚ) (user tok reason : String) (hmode : c.mode = .simulation) :
    ((switch_mode c t w .production user tok reason).1 = .error .rateLimited ∨
      (switch_mode c t w .production user tok reason).1 = .error .illegalTransition) ∧
    (switch_mode c t w .production user tok reason).2 = c ∧
    (c.switch_cooldown ≤ t - c.last_switch_time →
      (switch_mode c t w .production user tok reason).1 = .error .illegalTransition) := by
  unfold switch_mode
  by_cases hcool : t - c.last_switch_time < c.switch_cooldown
  · refine ⟨Or.inl (by simp [hcool]), by simp [hcool], ?_⟩
    intro hle
    exact absurd hcool (not_lt.mpr hle)
  · have hne : SystemMode.production ≠ c.mode := by
      rw [hmode]; intro h; cases h
    exact ⟨Or.inr (by simp [hcool, hne, hmode]), by simp [hcool, hne, hmode],
      fun _ => by simp [hcool, hne, hmode]⟩

/-- Closed witness for `sim_to_prod_always_rejected` at the freshly
initialised controller and a call outside the cooldown window. -/
theorem sim_to_prod_always_rejected_witness :
    ModeController.init.mode = .simulation ∧
    (switch_mode ModeController.init 5 0 .production "admin"
      secureProductionToken "go live").1 = .error .illegalTransition := by
  refine ⟨rfl, ?_⟩
  have h := sim_to_prod_always_rejected ModeController.init 5 0 "admin"
    secureProductionToken "go live" rfl
  exact h.2.2 (by norm_num [ModeController.init])

/-- Claim C3: every rejected `switch_mode` call — rate limited,
illegal transition or permission denied — leaves the whole controller
state (mode, reader/writer bindings, audit log, last-switch timestamp)
exactly as it was; rejections commit nothing partially. -/
theorem rejected_switch_leaves_state_unchanged (c : ModeController)
    (t w : ℚ) (m : SystemMode) (user tok reason : String) (e : SwitchError)
    (herr : (switch_mode c t w m user tok reason).1 = .error e) :
    (switch_mode c t w m user tok reason).2 = c := by
  unfold switch_mode at herr ⊢
  by_cases h1 : t - c.last_switch_time < c.switch_cooldown
  · simp [h1]
  · by_cases h2 : m = c.mode
    · simp [h1, h2]
    · by_cases h3 : c.mode = .simulation ∧ m = .production
      · simp [h1, h2, h3]
      · by_cases h4 : m = .production ∧ tok ≠ secureProductionToken
        · obtain ⟨hm4, htok⟩ := h4
          subst hm4
          have h3s : ¬c.mode = SystemMode.simulation := fun h => h3 ⟨h, rfl⟩
          simp [h1, h2, h3s, htok]
        · simp [h1, h2, h3, h4] at herr

/-- Closed witness for `rejected_switch_leaves_state_unchanged`: a
production switch with a wrong token (after moving to Validation) is
rejected and changes nothing. -/
theorem rejected_switch_leaves_state_unchanged_witness :
    (switch_mode { ModeController.init with mode := .validation } 5 0
      .production "hacker" "wrong_token" "").1 = .error .permissionDenied ∧
    (switch_mode { ModeController.init with mode := .validation } 5 0
      .production "hacker" "wrong_token" "").2 =
      { ModeController.init with mode := .validation } := by
  have h1 : (switch_mode { ModeController.init with mode := .validation } 5 0
      .production "hacker" "wrong_token" "").1 = .error .permissionDenied := by
    norm_num +decide [switch_mode, ModeController.init, secureProductionToken]
  refine ⟨h1, ?_⟩
  exact rejected_switch_leaves_state_unchanged _ 5 0 .production "hacker"
    "wrong_token" "" .permissionDenied h1

/-- Claim C7: a `switch_mode` attempt inside the cooldown window of
the last committed switch fails with the rate-limit error and changes
nothing; the identical attempt after the cooldown has elapsed returns
normally provided it satisfies the transition and credential rules;
and any call that returns normally and commits happened at or after
the cooldown boundary, so at most one switch commits per cooldown
window. -/
theorem switch_rate_limit_window (c : ModeController) (t₁ t₂ w : ℚ)
    (m : SystemMode) (user tok reason : String) :
    (t₁ - c.last_switch_time < c.switch_cooldown →
      (switch_mode c t₁ w m user tok reason).1 = .error .rateLimited ∧
      (switch_mode c t₁ w m user tok reason).2 = c) ∧
    (c.switch_cooldown ≤ t₂ - c.last_switch_time →
      ¬(c.mode = .simulation ∧ m = .production) →
      (m = .production → tok = secureProductionToken) →
      (switch_mode c t₂ w m user tok reason).1 = .ok ()) ∧
    ((switch_mode c t₁ w m user tok reason).1 = .ok () →
      c.switch_cooldown ≤ t₁ - c.last_switch_time) := by
  refine ⟨?_, ?_, ?_⟩
  · intro h
    unfold switch_mode
    simp [h]
  · intro h hlegal htok
    unfold switch_mode
    rw [if_neg (not_lt.mpr h)]
    by_cases h2 : m = c.mode
    · simp [h2]
    · rw [if_neg h2, if_neg hlegal]
      by_cases h4 : m = .production ∧ tok ≠ secureProductionToken
      · exact absurd (htok h4.1) h4.2
      · simp [h4]
  · intro hok
    by_contra hlt
    unfold switch_mode at hok
    simp [not_le.mp hlt] at hok

/-- Closed witness for `switch_rate_limit_window`: from the initial
controller, a Validation switch at t = 0.5 is rate limited and a
Validation switch at t = 2 succeeds. -/
theorem switch_rate_limit_window_witness :
    (switch_mode ModeController.init (1/2) 0 .validation "admin" "any"
      "test").1 = .error .rateLimited ∧
    (switch_mode ModeController.init 2 0 .validation "admin" "any"
      "test").1 = .ok () := by
  have h := switch_rate_limit_window ModeController.init (1/2) 2 0
    .validation "admin" "any" "test"
  refine ⟨(h.1 (by norm_num [ModeController.init])).1, ?_⟩
  exact h.2.1 (by norm_num [ModeController.init]) (by decide)
    (by intro h; exact absurd h (by decide))

/-- Claim C10: once the cooldown has elapsed, a `switch_mode` call
whose target equals the current mode returns normally as a pure no-op:
mode, reader/writer bindings, audit log and the last-switch timestamp
are all unchanged, so the no-op does not consume the rate-limit window
for a later real switch. -/
theorem noop_switch_is_pure (c : ModeController) (t w : ℚ)
    (m : SystemMode) (user tok reason : String)
    (hcool : c.switch_cooldown ≤ t - c.last_switch_time)
    (hm : m = c.mode) :
    switch_mode c t w m user tok reason = (.ok (), c) := by
  unfold switch_mode
  simp [not_lt.mpr hcool, hm]

/-- Closed witness for `noop_switch_is_pure`: re-requesting Simulation
on the initial controller at t = 3 is a pure no-op. -/
theorem noop_switch_is_pure_witness :
    switch_mode ModeController.init 3 0 .simulation "admin" "any" "" =
      (.ok (), ModeController.init) := by
  exact noop_switch_is_pure ModeController.init 3 0 .simulation "admin"
    "any" "" (by norm_num [ModeController.init]) rfl

/- ## Soft sensor (backend/app/data/soft_sensor.py) -/

/-- `SoftSensor.TEMP_MIN`, lower physical bound of the channel. -/
def TEMP_MIN : ℚ := 1200

/-- `SoftSensor.TEMP_MAX`, upper physical bound of the channel. -/
def TEMP_MAX : ℚ := 1550

/-- `SoftSensor.TEMP_MAX_CHANGE_RATE` in degrees per minute. -/
def TEMP_MAX_CHANGE_RATE : ℚ := 50

/-- `energy_coeffs.base_loss`, the fixed ambient loss term. -/
def energy_base_loss : ℚ := -5

/-- `energy_coeffs.si_heat`, exothermic heat per unit Si rate. -/
def energy_si_heat : ℚ := 20

/-- `energy_coeffs.c_heat`, exothermic heat per unit C rate. -/
def energy_c_heat : ℚ := 10

/-- The mutable fields of `SoftSensor`: the last-known-good reference
and the (never-read) last timestamp. -/
structure SoftSensorState where
  last_valid_temp : Option ℚ
  last_temp_ts : ℚ
deriving DecidableEq, Repr

/-- The soft sensor as constructed by `SoftSensor.__init__`. -/
def SoftSensorState.init : SoftSensorState :=
  { last_valid_temp := none, last_temp_ts := 0 }

/-- The dict returned by `SoftSensor.validate_temperature`. -/
structure ValidationStatus where
  is_valid : Bool
  reason : String
  confidence : ℚ
deriving DecidableEq, Repr

/-- `SoftSensor.validate_temperature`: range check, then (when a last
valid reference exists and `dt_s > 0`) rate-of-change check. -/
def validate_temperature (st : SoftSensorState) (current_temp dt_s : ℚ) :
    ValidationStatus :=
  if ¬(TEMP_MIN ≤ current_temp ∧ current_temp ≤ TEMP_MAX) then
    { is_valid := false, reason := "out_of_range", confidence := 0 }
  else
    match st.last_valid_temp with
    | some lv =>
      if 0 < dt_s then
        if TEMP_MAX_CHANGE_RATE < |current_temp - lv| / (dt_s / 60) then
          { is_valid := false, reason := "rate_exceeded", confidence := 1/5 }
        else
          { is_valid := true, reason := "normal", confidence := 1 }
      else
        { is_valid := true, reason := "normal", confidence := 1 }
    | none => { is_valid := true, reason := "normal", confidence := 1 }

/-- `SoftSensor.estimate_temperature`: heat-balance reconstruction. -/
def estimate_temperature (last_temp si_rate c_rate dt_s : ℚ) : ℚ :=
  let heat_input := si_rate * energy_si_heat + c_rate * energy_c_heat
  let net_change := (heat_input + energy_base_loss) * (dt_s / 60)
  last_temp + net_change

/-- The dict returned by `SoftSensor.process`. -/
structure SensorResult where
  raw_value : ℚ
  is_valid : Bool
  estimated_value : ℚ
  correction_source : String
  confidence : ℚ
deriving DecidableEq, Repr

/-- `SoftSensor.process`: validate, keep the raw value when valid,
otherwise reconstruct from the last valid reference or fall back to
the fixed default 1300.  The pair carries the updated sensor state;
the Python method is straight-line arithmetic and returns on every
path, so the embedding is a total function. -/
def SoftSensor.process (st : SoftSensorState) (raw_temp si_rate c_rate dt_s : ℚ) :
    SensorResult × SoftSensorState :=
  let validation := validate_temperature st raw_temp dt_s
  if validation.is_valid then
    ({ raw_value := raw_temp, is_valid := true, estimated_value := raw_temp,
       correction_source := "none", confidence := validation.confidence },
     { st with last_valid_temp := some raw_temp })
  else
    match st.last_valid_temp with
    | some lv =>
      let estimated := estimate_temperature lv si_rate c_rate dt_s
      ({ raw_value := raw_temp, is_valid := false, estimated_value := estimated,
         correction_source := "mechanism_inference", confidence := 17/20 },
       { st with last_valid_temp := some estimated })
    | none =>
      ({ raw_value := raw_temp, is_valid := false, estimated_value := 1300,
         correction_source := "default_fallback", confidence := 1/10 }, st)

/-- Helper: `validate_temperature` only ever returns one of its three
literal statuses. -/
theorem validate_temperature_cases (st : SoftSensorState) (t dt : ℚ) :
    validate_temperature st t dt =
        { is_valid := false, reason := "out_of_range", confidence := 0 } ∨
      validate_temperature st t dt =
        { is_valid := false, reason := "rate_exceeded", confidence := 1/5 } ∨
      validate_temperature st t dt =
        { is_valid := true, reason := "normal", confidence := 1 } := by
  unfold validate_temperature
  by_cases h1 : ¬(TEMP_MIN ≤ t ∧ t ≤ TEMP_MAX)
  · exact Or.inl (by simp [h1])
  · rw [if_neg h1]
    cases hlv : st.last_valid_temp with
    | none => exact Or.inr (Or.inr rfl)
    | some lv =>
      by_cases h2 : 0 < dt
      · by_cases h3 : TEMP_MAX_CHANGE_RATE < |t - lv| / (dt / 60)
        · exact Or.inr (Or.inl (by simp [h2, h3]))
        · exact Or.inr (Or.inr (by simp [h2, h3]))
      · exact Or.inr (Or.inr (by simp [h2]))

/-- Claim C5: `process` is total (never raises, always yields a sensor
status); on an invalid reading with a prior valid reference the
estimate is `last_valid + (si_rate·si_heat + c_rate·c_heat +
base_loss) · (dt_s/60)` with confidence 0.85 and source
`mechanism_inference`, and the reference is advanced to that estimate;
on an invalid reading without a reference the result is the fixed
default 1300 with confidence 0.1 and source `default_fallback`. -/
theorem soft_sensor_process_reconstruction (st : SoftSensorState)
    (raw sr cr dt : ℚ)
    (hinv : (validate_temperature st raw dt).is_valid = false) :
    (∀ lv, st.last_valid_temp = some lv →
      SoftSensor.process st raw sr cr dt =
        ({ raw_value := raw, is_valid := false,
           estimated_value :=
             lv + (sr * energy_si_heat + cr * energy_c_heat + energy_base_loss) * (dt / 60),
           correction_source := "mechanism_inference", confidence := 17/20 },
         { st with
             last_valid_temp :=
               some (lv + (sr * energy_si_heat + cr * energy_c_heat + energy_base_loss) * (dt / 60)) })) ∧
    (st.last_valid_temp = none →
      SoftSensor.process st raw sr cr dt =
        ({ raw_value := raw, is_valid := false, estimated_value := 1300,
           correction_source := "default_fallback", confidence := 1/10 }, st)) := by
  constructor
  · intro lv hlv
    have hform : estimate_temperature lv sr cr dt =
        lv + (sr * energy_si_heat + cr * energy_c_heat + energy_base_loss) * (dt / 60) := by
      unfold estimate_temperature
      ring
    simp only [SoftSensor.process, hinv, Bool.false_eq_true, if_false, hlv, hform]
  · intro hlv
    simp only [SoftSensor.process, hinv, Bool.false_eq_true, if_false, hlv]

/-- Closed witness for `soft_sensor_process_reconstruction`: the raw
reading 5000 with last valid reference 1350, rates 1 and 1 and one
minute elapsed reconstructs 1375. -/
theorem soft_sensor_process_reconstruction_witness :
    (validate_temperature { last_valid_temp := some 1350, last_temp_ts := 0 }
      5000 60).is_valid = false ∧
    (SoftSensor.process { last_valid_temp := some 1350, last_temp_ts := 0 }
      5000 1 1 60).1.estimated_value = 1375 := by
  have hinv : (validate_temperature
      { last_valid_temp := some 1350, last_temp_ts := 0 } 5000 60).is_valid = false := by
    norm_num [validate_temperature, TEMP_MIN, TEMP_MAX]
  refine ⟨hinv, ?_⟩
  have h := (soft_sensor_process_reconstruction
    { last_valid_temp := some 1350, last_temp_ts := 0 } 5000 1 1 60 hinv).1
    1350 rfl
  rw [h]
  norm_num [energy_si_heat, energy_c_heat, energy_base_loss]

/-- Claim C6: the temperature channel judges a reading invalid exactly
when it is out of the range [1200, 1550] or when a prior valid
reference exists, the elapsed time is positive and the change rate
exceeds 50 degrees per minute; out-of-range readings carry validation
confidence 0; a valid reading is passed through by `process` with
`estimated_value` equal to the raw reading and source `none`. -/
theorem validate_temperature_characterisation (st : SoftSensorState)
    (t dt sr cr : ℚ) :
    ((validate_temperature st t dt).is_valid = false ↔
      (t < TEMP_MIN ∨ TEMP_MAX < t) ∨
        (∃ lv, st.last_valid_temp = some lv ∧ 0 < dt ∧
          TEMP_MAX_CHANGE_RATE < |t - lv| / (dt / 60))) ∧
    ((t < TEMP_MIN ∨ TEMP_MAX < t) →
      (validate_temperature st t dt).confidence = 0) ∧
    ((validate_temperature st t dt).is_valid = true →
      (SoftSensor.process st t sr cr dt).1 =
        { raw_value := t, is_valid := true, estimated_value := t,
          correction_source := "none", confidence := 1 }) := by
  have hnot : ¬(TEMP_MIN ≤ t ∧ t ≤ TEMP_MAX) ↔ (t < TEMP_MIN ∨ TEMP_MAX < t) := by
    rw [not_and_or, not_le, not_le]
  refine ⟨?_, ?_, ?_⟩
  · by_cases h1 : ¬(TEMP_MIN ≤ t ∧ t ≤ TEMP_MAX)
    · have hval : validate_temperature st t dt =
          { is_valid := false, reason := "out_of_range", confidence := 0 } := by
        unfold validate_temperature
        rw [if_pos h1]
      rw [hval]
      exact iff_of_true rfl (Or.inl (hnot.mp h1))
    · have h1r : TEMP_MIN ≤ t ∧ t ≤ TEMP_MAX := not_not.mp h1
      cases hlv : st.last_valid_temp with
      | none =>
        have hval : validate_temperature st t dt =
            { is_valid := true, reason := "normal", confidence := 1 } := by
          unfold validate_temperature
          rw [if_neg h1, hlv]
        rw [hval]
        refine iff_of_false (by simp) ?_
        rintro ((hr | hr) | ⟨x, hx, _, _⟩)
        · exact absurd hr (not_lt.mpr h1r.1)
        · exact absurd hr (not_lt.mpr h1r.2)
        · cases hx
      | some lv =>
        by_cases h2 : 0 < dt
        · by_cases h3 : TEMP_MAX_CHANGE_RATE < |t - lv| / (dt / 60)
          · have hval : validate_temperature st t dt =
                { is_valid := false, reason := "rate_exceeded", confidence := 1/5 } := by
              unfold validate_temperature
              rw [if_neg h1, hlv]
              simp only [if_pos h2, if_pos h3]
            rw [hval]
            exact iff_of_true rfl (Or.inr ⟨lv, rfl, h2, h3⟩)
          · have hval : validate_temperature st t dt =
                { is_valid := true, reason := "normal", confidence := 1 } := by
              unfold validate_temperature
              rw [if_neg h1, hlv]
              simp only [if_pos h2, if_neg h3]
            rw [hval]
            refine iff_of_false (by simp) ?_
            rintro ((hr | hr) | ⟨x, hx, _, hrate⟩)
            · exact absurd hr (not_lt.mpr h1r.1)
            · exact absurd hr (not_lt.mpr h1r.2)
            · cases hx
              exact absurd hrate h3
        · have hval : validate_temperature st t dt =
              { is_valid := true, reason := "normal", confidence := 1 } := by
            unfold validate_temperature
            rw [if_neg h1, hlv]
            simp only [if_neg h2]
          rw [hval]
          refine iff_of_false (by simp) ?_
          rintro ((hr | hr) | ⟨x, hx, hdt, _⟩)
          · exact absurd hr (not_lt.mpr h1r.1)
          · exact absurd hr (not_lt.mpr h1r.2)
          · exact absurd hdt h2
  · intro hout
    have h1 : ¬(TEMP_MIN ≤ t ∧ t ≤ TEMP_MAX) := hnot.mpr hout
    unfold validate_temperature
    rw [if_pos h1]
  · intro hvalid
    have hconf : (validate_temperature st t dt).confidence = 1 := by
      rcases validate_temperature_cases st t dt with h | h | h <;>
          rw [h] at hvalid ⊢
      · cases hvalid
      · cases hvalid
    unfold SoftSensor.process
    rw [if_pos hvalid, hconf]

/-- Closed witness for `validate_temperature_characterisation`: a
stable in-range reading of 1300 from a cold-start sensor is valid and
passed through unchanged with source `none`. -/
theorem validate_temperature_characterisation_witness :
    (validate_temperature SoftSensorState.init 1300 60).is_valid = true ∧
    (SoftSensor.process SoftSensorState.init 1300 0 0 60).1 =
      { raw_value := 1300, is_valid := true, estimated_value := 1300,
        correction_source := "none", confidence := 1 } := by
  have hv : (validate_temperature SoftSensorState.init 1300 60).is_valid = true := by
    norm_num [validate_temperature, SoftSensorState.init, TEMP_MIN, TEMP_MAX]
  exact ⟨hv,
    (validate_temperature_characterisation SoftSensorState.init 1300 60 0 0).2.2 hv⟩

/- ## Kalman filter (backend/app/tools/kinetics_simulator.py) -/

/-- `KalmanFilter1D.predict`: given state `(x, P)` and noise `Q`,
apply input `u`. -/
def KalmanFilter1D.predict (x P Q u : ℚ) : ℚ × ℚ := (x + u, P + Q)

/-- `KalmanFilter1D.update`: `K = P/(P+R)`, `x ← x + K(z−x)`,
`P ← (1−K)P`.  When `P + R = 0` the Python float division raises
`ZeroDivisionError`; that path is `none`. -/
def KalmanFilter1D.update (x P R z : ℚ) : Option (ℚ × ℚ) :=
  if P + R = 0 then none
  else
    let K := P / (P + R)
    some (x + K * (z - x), (1 - K) * P)

/-- Claim C9 counterexample: with `Q = R = 0` and measurement
`z = x`, `update` leaves `x` unchanged but zeroes the covariance:
at `x = 1`, `P = 0.1` the update returns `(1, 0)` and `0 ≠ 0.1`, so
`P` is not left unchanged as claimed (`Q` does not occur in
`update` at all). -/
theorem kalman_update_claim_false :
    KalmanFilter1D.update 1 (1/10) 0 1 = some (1, 0) ∧ (0 : ℚ) ≠ 1/10 := by
  norm_num [KalmanFilter1D.update]

/-- Claim C9 amended: a Kalman `update` with `R = 0` and `z = x`
leaves the estimate `x` unchanged but sets the covariance `P` to
`(1−K)·P = 0`, for every nonzero `P` (at `P = 0` the division by
`P + R = 0` raises instead). -/
theorem kalman_update_self_measurement (x P : ℚ) (hP : P ≠ 0) :
    KalmanFilter1D.update x P 0 x = some (x, 0) := by
  unfold KalmanFilter1D.update
  rw [if_neg (by simpa using hP)]
  simp [div_self, hP]

/-- Closed witness for `kalman_update_self_measurement` at `x = 1`,
`P = 0.1`. -/
theorem kalman_update_self_measurement_witness :
    (1 / 10 : ℚ) ≠ 0 ∧ KalmanFilter1D.update 1 (1/10) 0 1 = some (1, 0) :=
  ⟨by norm_num, kalman_update_self_measurement 1 (1/10) (by norm_num)⟩

/- ## Real-time simulator (backend/app/data/simulator.py) -/

/-- `settings.k_si_base`. -/
def k_si_base : ℚ := 2

/-- `settings.k_mn_base`. -/
def k_mn_base : ℚ := 3/2

/-- `settings.k_v_base`. -/
def k_v_base : ℚ := 6/5

/-- `settings.k_c_base`. -/
def k_c_base : ℚ := 1/20

/-- `settings.temp_critical_v_c_switch`. -/
def temp_critical_v_c_switch : ℚ := 1360

/-- `settings.heat_efficiency_default` (0.92). -/
def heat_efficiency_default : ℚ := 23/25

/-- `settings.reaction_rate_mod_default` (1.05). -/
def reaction_rate_mod_default : ℚ := 21/20

/-- `settings.oxygen_flow_nm3_h_default`. -/
def oxygen_flow_nm3_h_default : ℚ := 22000

/-- The discrete sub-lance sample dict stored in `latest_sample`. -/
structure SubLanceSample where
  time : ℚ
  temp : ℚ
  C : ℚ
  V : ℚ
deriving DecidableEq, Repr

/-- `SimState`, the canonical process state owned by the loop.  The
wall-clock `last_ts` is modelled as a rational. -/
structure SimState where
  time_min : ℚ
  total_duration : ℚ
  c_pct : ℚ
  si_pct : ℚ
  v_pct : ℚ
  mn_pct : ℚ
  d_si : ℚ
  d_c : ℚ
  temp_c : ℚ
  lance_height_mm : ℚ
  oxygen_flow_nm3_min : ℚ
  coolant_added_kg : ℚ
  latest_sample : Option SubLanceSample
  is_emergency_stop : Bool
  last_ts : ℚ
deriving DecidableEq, Repr

/-- The dataclass defaults of `SimState`. -/
def SimState.default : SimState :=
  { time_min := 0
    total_duration := 8
    c_pct := 7/2
    si_pct := 1/4
    v_pct := 7/20
    mn_pct := 1/5
    d_si := 0
    d_c := 0
    temp_c := 1280
    lance_height_mm := 1100
    oxygen_flow_nm3_min := oxygen_flow_nm3_h_default / 60
    coolant_added_kg := 0
    latest_sample := none
    is_emergency_stop := false
    last_ts := 0 }

/-- The mutable fields of `DataSimulator` touched by the tick. -/
structure DataSimulator where
  state : SimState
  soft_sensor : SoftSensorState
  heat_efficiency_factor : ℚ
  reaction_rate_modifier : ℚ
deriving DecidableEq, Repr

/-- `DataSimulator.__init__`. -/
def DataSimulator.init : DataSimulator :=
  { state := SimState.default
    soft_sensor := SoftSensorState.init
    heat_efficiency_factor := heat_efficiency_default
    reaction_rate_modifier := reaction_rate_mod_default }

/-- The `random.uniform` draws a tick can consume, passed explicitly:
`reset_temp ∈ [-10,10]`, `reset_si ∈ [-0.05,0.05]`,
`reset_eff ∈ [-0.02,0.02]`, `sample_temp ∈ [-15,15]`,
`sample_c ∈ [-0.1,0.1]`, `sample_v ∈ [-0.01,0.01]`. -/
structure TickDraws where
  reset_temp : ℚ
  reset_si : ℚ
  reset_eff : ℚ
  sample_temp : ℚ
  sample_c : ℚ
  sample_v : ℚ
deriving DecidableEq, Repr

/-- Python3 `round` to an integer: round half to even. -/
def round_half_even (q : ℚ) : ℤ :=
  if q - ⌊q⌋ < 1/2 then ⌊q⌋
  else if 1/2 < q - ⌊q⌋ then ⌊q⌋ + 1
  else if ⌊q⌋ % 2 = 0 then ⌊q⌋ else ⌊q⌋ + 1

/-- Python `round(q, 1)`. -/
def round1 (q : ℚ) : ℚ := (round_half_even (q * 10) : ℚ) / 10

/-- The guard `not s.latest_sample or abs(sample.time - current_min) > 0.5`
deciding whether a new sub-lance sample is emitted. -/
def sample_needs_update : Option SubLanceSample → ℚ → Bool
  | none, _ => true
  | some sm, current_min => decide (1/2 < |sm.time - current_min|)

/-- `DataSimulator._reset_state`: fresh default state with slightly
randomised temperature and Si, drifted heat-efficiency clamped to
[0.85, 0.98], and a fresh soft sensor.  `reaction_rate_modifier` is
not changed. -/
def reset_state (sim : DataSimulator) (wall : ℚ) (d : TickDraws) : DataSimulator :=
  { sim with
    state := { SimState.default with
      latest_sample := none
      temp_c := 1280 + d.reset_temp
      si_pct := 1/4 + d.reset_si
      last_ts := wall }
    heat_efficiency_factor :=
      min (49/50) (max (17/20) (sim.heat_efficiency_factor + d.reset_eff))
    soft_sensor := SoftSensorState.init }

/-- Blocks 2 and 3 of `_update_physics` (reaction kinetics with the
V/C crossover, the %-field clamps, and the thermal balance including
the scripted coolant addition). -/
def reaction_and_thermal (sim : DataSimulator) (s : SimState) (dt_min : ℚ) :
    SimState :=
  let k_si := k_si_base * sim.reaction_rate_modifier
  let k_mn := k_mn_base * sim.reaction_rate_modifier
  let k_v0 := k_v_base * sim.reaction_rate_modifier
  let temp_factor := (s.temp_c - temp_critical_v_c_switch) / 100
  let k_v := if 0 < temp_factor then k_v0 * max (1/10) (1 - temp_factor * 2) else k_v0
  let k_c := if 0 < temp_factor then k_c_base * (1 + temp_factor * 5) else k_c_base
  let d_si := k_si * s.si_pct * dt_min
  let d_mn := k_mn * s.mn_pct * dt_min
  let d_v := k_v * s.v_pct * dt_min
  let d_c := k_c * s.c_pct * dt_min
  let s := { s with
    d_si := d_si
    d_c := d_c
    si_pct := max (1/100) (s.si_pct - d_si)
    mn_pct := max (1/20) (s.mn_pct - d_mn)
    v_pct := max (1/20) (s.v_pct - d_v)
    c_pct := max 3 (s.c_pct - d_c) }
  let heat_gen := (d_si * 180 + d_mn * 60 + d_v * 120 + d_c * 50) *
    sim.heat_efficiency_factor
  let heat_loss := (1/2) * dt_min * (s.temp_c / 1400)
  let coolant_pair :=
    if 29/10 < s.time_min ∧ s.time_min < 31/10 then
      if s.coolant_added_kg < 1000 then
        (((50 : ℚ)) * (1/2), { s with coolant_added_kg := s.coolant_added_kg + 50 })
      else ((0 : ℚ), s)
    else ((0 : ℚ), s)
  let coolant_effect := coolant_pair.1
  let s := coolant_pair.2
  { s with temp_c := s.temp_c + (heat_gen - heat_loss - coolant_effect) }

/-- Block 4 of `_update_physics` (scripted lance trajectory). -/
def lance_step (s : SimState) : SimState :=
  { s with lance_height_mm :=
      if s.time_min < 1 then 1100 else if s.time_min < 5 then 1200 else 1000 }

/-- Block 5 of `_update_physics` (noisy discrete sub-lance sample in
the two fixed elapsed-time windows). -/
def sampling_step (s : SimState) (d : TickDraws) : SimState :=
  let current_min := round1 s.time_min
  if (195/100 ≤ current_min ∧ current_min ≤ 205/100) ∨
      (695/100 ≤ current_min ∧ current_min ≤ 705/100) then
    if sample_needs_update s.latest_sample current_min then
      { s with latest_sample := some {
          time := current_min
          temp := s.temp_c + d.sample_temp
          C := max (1/100) (s.c_pct + d.sample_c)
          V := max (1/1000) (s.v_pct + d.sample_v) } }
    else s
  else s

/-- `DataSimulator._update_physics`: emergency-stop freeze, time
advance, end-of-heat reset, then the reaction/thermal, lance and
sampling blocks, exactly in source order. -/
def update_physics (sim : DataSimulator) (dt_s wall : ℚ) (d : TickDraws) :
    DataSimulator :=
  let s := sim.state
  if s.is_emergency_stop then
    { sim with state :=
        { s with last_ts := wall, temp_c := s.temp_c - (1/10) * (dt_s / 60) } }
  else
    let dt_min := dt_s / 60
    let s := { s with time_min := s.time_min + dt_min, last_ts := wall }
    if s.time_min > s.total_duration + 2 then
      reset_state sim wall d
    else
      let s := reaction_and_thermal sim s dt_min
      let s := lance_step s
      let s := sampling_step s d
      { sim with state := s }

/-- The all-zero draw vector, used for concrete evaluations. -/
def TickDraws.zero : TickDraws :=
  { reset_temp := 0, reset_si := 0, reset_eff := 0
    sample_temp := 0, sample_c := 0, sample_v := 0 }

/-- Claim C4 counterexample: `_update_physics` does not clamp the
temperature into [1000, 2000].  From the default state with
temperature 2500 a one-second tick leaves the temperature above 2000
(it even rises), so the claimed post-step temperature invariant is
false at this concrete input. -/
theorem update_physics_no_temperature_clamp :
    2000 < (update_physics
      { DataSimulator.init with state := { SimState.default with temp_c := 2500 } }
      1 0 TickDraws.zero).state.temp_c := by
  norm_num [update_physics, reaction_and_thermal, lance_step, sampling_step,
    reset_state, DataSimulator.init, SimState.default,
    SoftSensorState.init, TickDraws.zero, k_si_base, k_mn_base, k_v_base,
    k_c_base, temp_critical_v_c_switch, heat_efficiency_default,
    reaction_rate_mod_default, oxygen_flow_nm3_h_default, round1,
    round_half_even, sample_needs_update, max_def, min_def]

/-- Helper: the reaction/thermal block clamps the four percentage
fields to their floors. -/
theorem reaction_and_thermal_floors (sim : DataSimulator) (s : SimState)
    (dt_min : ℚ) :
    1/100 ≤ (reaction_and_thermal sim s dt_min).si_pct ∧
    1/20 ≤ (reaction_and_thermal sim s dt_min).mn_pct ∧
    1/20 ≤ (reaction_and_thermal sim s dt_min).v_pct ∧
    3 ≤ (reaction_and_thermal sim s dt_min).c_pct := by
  refine ⟨?_, ?_, ?_, ?_⟩ <;>
    · simp only [reaction_and_thermal, apply_ite Prod.snd, apply_ite SimState.si_pct,
        apply_ite SimState.mn_pct, apply_ite SimState.v_pct, apply_ite SimState.c_pct,
        ite_self]
      exact le_max_left _ _

/-- Helper: the lance block touches only the lance height. -/
theorem lance_step_pct (s : SimState) :
    (lance_step s).si_pct = s.si_pct ∧ (lance_step s).mn_pct = s.mn_pct ∧
    (lance_step s).v_pct = s.v_pct ∧ (lance_step s).c_pct = s.c_pct :=
  ⟨rfl, rfl, rfl, rfl⟩

/-- Helper: the sampling block touches only `latest_sample`. -/
theorem sampling_step_pct (s : SimState) (d : TickDraws) :
    (sampling_step s d).si_pct = s.si_pct ∧ (sampling_step s d).mn_pct = s.mn_pct ∧
    (sampling_step s d).v_pct = s.v_pct ∧ (sampling_step s d).c_pct = s.c_pct := by
  refine ⟨?_, ?_, ?_, ?_⟩ <;>
    simp only [sampling_step, apply_ite SimState.si_pct, apply_ite SimState.mn_pct,
      apply_ite SimState.v_pct, apply_ite SimState.c_pct, ite_self]

/-- Helper: the reaction/thermal, lance and sampling blocks in
sequence keep the four percentage floors. -/
theorem pipeline_floors (sim : DataSimulator) (s : SimState) (dt_min : ℚ)
    (d : TickDraws) :
    1/100 ≤ (sampling_step (lance_step (reaction_and_thermal sim s dt_min)) d).si_pct ∧
    1/20 ≤ (sampling_step (lance_step (reaction_and_thermal sim s dt_min)) d).mn_pct ∧
    1/20 ≤ (sampling_step (lance_step (reaction_and_thermal sim s dt_min)) d).v_pct ∧
    3 ≤ (sampling_step (lance_step (reaction_and_thermal sim s dt_min)) d).c_pct := by
  have hfl := reaction_and_thermal_floors sim s dt_min
  have hl := lance_step_pct (reaction_and_thermal sim s dt_min)
  have hsm := sampling_step_pct (lance_step (reaction_and_thermal sim s dt_min)) d
  refine ⟨?_, ?_, ?_, ?_⟩
  · rw [hsm.1, hl.1]
    exact hfl.1
  · rw [hsm.2.1, hl.2.1]
    exact hfl.2.1
  · rw [hsm.2.2.1, hl.2.2.1]
    exact hfl.2.2.1
  · rw [hsm.2.2.2, hl.2.2.2]
    exact hfl.2.2.2

/-- Claim C4 amended: on every tick that runs the reaction step (no
emergency stop and no end-of-heat reset) the physics update clamps
every percentage field after the explicit Euler step — Si to at least
0.01, Mn and V to at least 0.05 and C to at least 3.0 — so all four
are at least 0.01; the temperature is not clamped (see the
counterexample) and no [1000, 2000] bound is enforced. -/
theorem update_physics_pct_clamped (sim : DataSimulator) (dt_s wall : ℚ)
    (d : TickDraws) (hstop : sim.state.is_emergency_stop = false)
    (hnoreset : ¬(sim.state.time_min + dt_s / 60 > sim.state.total_duration + 2)) :
    1/100 ≤ (update_physics sim dt_s wall d).state.si_pct ∧
    1/100 ≤ (update_physics sim dt_s wall d).state.mn_pct ∧
    1/100 ≤ (update_physics sim dt_s wall d).state.v_pct ∧
    1/100 ≤ (update_physics sim dt_s wall d).state.c_pct := by
  unfold update_physics
  simp only [hstop, Bool.false_eq_true, if_false]
  rw [if_neg hnoreset]
  exact ⟨(pipeline_floors sim _ (dt_s / 60) d).1,
    le_trans (by norm_num) (pipeline_floors sim _ (dt_s / 60) d).2.1,
    le_trans (by norm_num) (pipeline_floors sim _ (dt_s / 60) d).2.2.1,
    le_trans (by norm_num) (pipeline_floors sim _ (dt_s / 60) d).2.2.2⟩

/-- Closed witness for `update_physics_pct_clamped` at the initial
simulator state and a one-second tick. -/
theorem update_physics_pct_clamped_witness :
    DataSimulator.init.state.is_emergency_stop = false ∧
    ¬(DataSimulator.init.state.time_min + 1 / 60 >
        DataSimulator.init.state.total_duration + 2) ∧
    1/100 ≤ (update_physics DataSimulator.init 1 0 TickDraws.zero).state.si_pct := by
  have h1 : DataSimulator.init.state.is_emergency_stop = false := rfl
  have h2 : ¬(DataSimulator.init.state.time_min + 1 / 60 >
      DataSimulator.init.state.total_duration + 2) := by
    norm_num [DataSimulator.init, SimState.default]
  exact ⟨h1, h2,
    (update_physics_pct_clamped DataSimulator.init 1 0 TickDraws.zero h1 h2).1⟩

/- ## Equilibrium solver (backend/app/tools/equilibrium_model.py) -/

namespace Equilibrium

/-- `C_SP_HM` (MJ per degree per tonne). -/
def C_SP_HM : ℚ := 0.88

/-- `H_HM_0`. -/
def H_HM_0 : ℚ := 42

/-- `C_SP_ST`. -/
def C_SP_ST : ℚ := 0.76

/-- `H_ST_0`. -/
def H_ST_0 : ℚ := 193

/-- `C_SP_SLAG`. -/
def C_SP_SLAG : ℚ := 1.19

/-- `H_R_C_CO`. -/
def H_R_C_CO : ℚ := 7470

/-- `H_R_C_CO2`. -/
def H_R_C_CO2 : ℚ := 21285

/-- `H_R_SI`. -/
def H_R_SI : ℚ := 27620

/-- `H_R_FE`. -/
def H_R_FE : ℚ := 3135

/-- `H_R_V`. -/
def H_R_V : ℚ := 15000

/-- `H_R_TI`. -/
def H_R_TI : ℚ := 19000

/-- `M_C`. -/
def M_C : ℚ := 12.01

/-- `M_SI`. -/
def M_SI : ℚ := 28.09

/-- `M_FE`. -/
def M_FE : ℚ := 55.85

/-- `M_V`. -/
def M_V : ℚ := 50.94

/-- `M_TI`. -/
def M_TI : ℚ := 47.87

/-- The inputs `calculate_equilibrium_state` reads, with the
`recipe.get(..., default)` lookups already resolved by the caller
(defaults 100, 10, 3, 1 tonnes). -/
structure EqInputs where
  iron_weight_t : ℚ
  scrap_weight_t : ℚ
  lime_weight_t : ℚ
  ore_weight_t : ℚ
  C : ℚ
  Si : ℚ
  V : ℚ
  Ti : ℚ
  P : ℚ
  initial_temp_c : ℚ
  oxygen_flow_rate_m3h : ℚ
  duration_s : ℚ
deriving DecidableEq, Repr

/-- Initial Si mass (kg). -/
def m_si_init (i : EqInputs) : ℚ := i.iron_weight_t * 1000 * (i.Si / 100)

/-- Initial C mass (kg), including the 0.1 percent C scrap term. -/
def m_c_init (i : EqInputs) : ℚ :=
  i.iron_weight_t * 1000 * (i.C / 100) + i.scrap_weight_t * 1000 * (1/1000)

/-- Initial V mass (kg). -/
def m_v_init (i : EqInputs) : ℚ := i.iron_weight_t * 1000 * (i.V / 100)

/-- Initial Ti mass (kg). -/
def m_ti_init (i : EqInputs) : ℚ := i.iron_weight_t * 1000 * (i.Ti / 100)

/-- Lanced oxygen volume, `(flow/3600)·duration`. -/
def total_oxygen_m3 (i : EqInputs) : ℚ :=
  (i.oxygen_flow_rate_m3h / 3600) * i.duration_s

/-- Oxygen mass from ore (30 percent by weight). -/
def o2_from_ore_kg (i : EqInputs) : ℚ := i.ore_weight_t * 1000 * (3/10)

/-- Ore oxygen as O2 volume via the molar volume 0.0224. -/
def vol_o2_ore (i : EqInputs) : ℚ :=
  ((o2_from_ore_kg i * 1000) / 16 / 2) * 0.0224

/-- Total available O2 (m3). -/
def total_o2_available_m3 (i : EqInputs) : ℚ := total_oxygen_m3 i + vol_o2_ore i

/-- The O2 pool (mol) before the waterfall. -/
def o2_mols_0 (i : EqInputs) : ℚ := total_o2_available_m3 i / 0.0224

/-- Moles of Si available. -/
def mols_si (i : EqInputs) : ℚ := (m_si_init i * 1000) / M_SI

/-- Stage 2.1: Si reacts first, 1:1 with O2. -/
def react_si_mols (i : EqInputs) : ℚ := min (mols_si i) (o2_mols_0 i)

/-- O2 pool after Si. -/
def o2_mols_1 (i : EqInputs) : ℚ := o2_mols_0 i - react_si_mols i

/-- Final Si mass (kg). -/
def m_si_final (i : EqInputs) : ℚ :=
  if react_si_mols i = mols_si i then 0
  else (mols_si i - react_si_mols i) * M_SI / 1000

/-- Moles of Ti available. -/
def mols_ti (i : EqInputs) : ℚ := (m_ti_init i * 1000) / M_TI

/-- Stage 2.2: Ti reacts second, 1:1 with O2, only if O2 remains. -/
def react_ti_mols (i : EqInputs) : ℚ :=
  if 0 < o2_mols_1 i then min (mols_ti i) (o2_mols_1 i) else 0

/-- O2 pool after Ti. -/
def o2_mols_2 (i : EqInputs) : ℚ := o2_mols_1 i - react_ti_mols i

/-- Final Ti mass (kg). -/
def m_ti_final (i : EqInputs) : ℚ :=
  if react_ti_mols i = mols_ti i then 0
  else (mols_ti i - react_ti_mols i) * M_TI / 1000

/-- Moles of V available. -/
def mols_v (i : EqInputs) : ℚ := (m_v_init i * 1000) / M_V

/-- Stage 2.3: V reacts third, 0.75 mol O2 per mol V. -/
def react_v_mols (i : EqInputs) : ℚ :=
  if 0 < o2_mols_2 i then min (mols_v i) (o2_mols_2 i / 0.75) else 0

/-- O2 pool after V. -/
def o2_mols_3 (i : EqInputs) : ℚ := o2_mols_2 i - react_v_mols i * 0.75

/-- Final V mass (kg). -/
def m_v_final (i : EqInputs) : ℚ := (mols_v i - react_v_mols i) * M_V / 1000

/-- Moles of C available. -/
def mols_c (i : EqInputs) : ℚ := (m_c_init i * 1000) / M_C

/-- Stage 2.4: C reacts fourth; 90 percent to CO and 10 percent to
CO2, hence 0.55 mol O2 per mol C — not the 0.5 (2:1) of the kinetics
engine. -/
def react_c_mols (i : EqInputs) : ℚ :=
  if 0 < o2_mols_3 i then min (mols_c i) (o2_mols_3 i / 0.55) else 0

/-- O2 pool after C. -/
def o2_mols_4 (i : EqInputs) : ℚ := o2_mols_3 i - react_c_mols i * 0.55

/-- Final C mass (kg). -/
def m_c_final (i : EqInputs) : ℚ := (mols_c i - react_c_mols i) * M_C / 1000

/-- Stage 2.5: remaining oxygen oxidises Fe, 0.5 mol O2 per mol Fe. -/
def react_fe_mols (i : EqInputs) : ℚ :=
  if 0 < o2_mols_4 i then o2_mols_4 i / 0.5 else 0

/-- Reacted Si tonnage. -/
def w_si_reacted_t (i : EqInputs) : ℚ := (react_si_mols i * M_SI) / 1000000

/-- Reacted Ti tonnage. -/
def w_ti_reacted_t (i : EqInputs) : ℚ := (react_ti_mols i * M_TI) / 1000000

/-- Reacted V tonnage. -/
def w_v_reacted_t (i : EqInputs) : ℚ := (react_v_mols i * M_V) / 1000000

/-- Reacted C tonnage. -/
def w_c_reacted_t (i : EqInputs) : ℚ := (react_c_mols i * M_C) / 1000000

/-- Reacted Fe tonnage. -/
def w_fe_reacted_t (i : EqInputs) : ℚ := (react_fe_mols i * M_FE) / 1000000

/-- Final steel tonnage. -/
def w_steel_final_t (i : EqInputs) : ℚ :=
  (i.iron_weight_t + i.scrap_weight_t) -
    (w_c_reacted_t i + w_si_reacted_t i + w_ti_reacted_t i +
      w_v_reacted_t i + w_fe_reacted_t i)

/-- Final Si percentage in `final_analysis`. -/
def final_Si_pct (i : EqInputs) : ℚ := (m_si_final i / 1000 / w_steel_final_t i) * 100

/-- Final Ti percentage in `final_analysis`. -/
def final_Ti_pct (i : EqInputs) : ℚ := (m_ti_final i / 1000 / w_steel_final_t i) * 100

/-- Final C percentage in `final_analysis`. -/
def final_C_pct (i : EqInputs) : ℚ := (m_c_final i / 1000 / w_steel_final_t i) * 100

/-- Final V percentage in `final_analysis`. -/
def final_V_pct (i : EqInputs) : ℚ := (m_v_final i / 1000 / w_steel_final_t i) * 100

/-- Modelled from the spec for comparison only: the C stage under the
stoichiometry the claim asserts (the kinetics engine value C:O2 = 2:1,
i.e. 0.5 mol O2 per mol C) instead of the 0.55 in the source. -/
def react_c_mols_claimed (i : EqInputs) : ℚ :=
  if 0 < o2_mols_3 i then min (mols_c i) (o2_mols_3 i / 0.5) else 0

/-- Final C mass under the claimed 2:1 C stoichiometry. -/
def m_c_final_claimed (i : EqInputs) : ℚ :=
  (mols_c i - react_c_mols_claimed i) * M_C / 1000

/-- A concrete charge: 100 t iron at 4.2 percent C and no Si/V/Ti, no
scrap/lime/ore, with exactly 0.5 mol O2 delivered per mol C. -/
def eqCx : EqInputs :=
  { iron_weight_t := 100, scrap_weight_t := 0, lime_weight_t := 0
    ore_weight_t := 0, C := 4.2, Si := 0, V := 0, Ti := 0, P := 0
    initial_temp_c := 1300, oxygen_flow_rate_m3h := 4704000/1201
    duration_s := 3600 }

/-- Claim C8 counterexample: the equilibrium solver does not use the
kinetics stoichiometry for carbon.  With oxygen delivered at exactly
0.5 mol O2 per mol C (the claimed 2:1 ratio), the claimed stoichiometry
would consume all carbon, but the source (0.55 mol O2 per mol C from
its 90/10 CO/CO2 split) leaves a strictly positive final C mass. -/
theorem equilibrium_c_stoichiometry_differs :
    0 < m_c_final eqCx ∧ m_c_final_claimed eqCx = 0 := by
  norm_num [m_c_final, m_c_final_claimed, react_c_mols, react_c_mols_claimed,
    mols_c, m_c_init, o2_mols_3, o2_mols_2, o2_mols_1, o2_mols_0,
    react_v_mols, react_ti_mols, react_si_mols, mols_v, mols_ti, mols_si,
    m_v_init, m_ti_init, m_si_init, total_o2_available_m3, total_oxygen_m3,
    vol_o2_ore, o2_from_ore_kg, M_C, M_SI, M_TI, M_V, eqCx, min_def]

/-- Claim C8 amended: the solver consumes oxygen in strict affinity
order Si, Ti, V, C, Fe with stoichiometry Si:O2 = 1:1, Ti:O2 = 1:1,
V:O2 = 4:3 and C:O2 = 1:0.55 (the 90/10 CO/CO2 split — not the
kinetics engine 2:1); whenever the delivered oxygen covers the full Si
and Ti demand, the final Si and Ti masses and percentages are exactly
zero, and when the pool left after V is positive but below the full C
demand, carbon is only partially reduced: final C mass strictly
between 0 and the initial C mass. -/
theorem equilibrium_waterfall (i : EqInputs)
    (hti : 0 ≤ mols_ti i)
    (hO : mols_si i + mols_ti i ≤ o2_mols_0 i)
    (ho3_pos : 0 < o2_mols_3 i)
    (ho3_lt : o2_mols_3 i < 0.55 * mols_c i) :
    m_si_final i = 0 ∧ m_ti_final i = 0 ∧
    final_Si_pct i = 0 ∧ final_Ti_pct i = 0 ∧
    react_c_mols i = o2_mols_3 i / 0.55 ∧
    0 < react_c_mols i ∧ react_c_mols i < mols_c i ∧
    0 < m_c_final i ∧ m_c_final i < m_c_init i := by
  have hc_pos : 0 < mols_c i := by
    have h055 : (0 : ℚ) < 0.55 := by norm_num
    nlinarith
  have hsi_le : mols_si i ≤ o2_mols_0 i := by linarith
  have hreact_si : react_si_mols i = mols_si i := min_eq_left hsi_le
  have hm_si : m_si_final i = 0 := by
    rw [m_si_final, if_pos hreact_si]
  have ho1 : o2_mols_1 i = o2_mols_0 i - mols_si i := by
    rw [o2_mols_1, hreact_si]
  have hti_le : mols_ti i ≤ o2_mols_1 i := by
    rw [ho1]; linarith
  have hreact_ti : react_ti_mols i = mols_ti i := by
    rw [react_ti_mols]
    by_cases h : 0 < o2_mols_1 i
    · rw [if_pos h]
      exact min_eq_left hti_le
    · rw [if_neg h]
      have : o2_mols_1 i ≤ 0 := not_lt.mp h
      linarith
  have hm_ti : m_ti_final i = 0 := by
    rw [m_ti_final, if_pos hreact_ti]
  have hreact_c : react_c_mols i = o2_mols_3 i / 0.55 := by
    rw [react_c_mols, if_pos ho3_pos]
    refine min_eq_right ?_
    rw [div_le_iff₀ (by norm_num : (0:ℚ) < 0.55)]
    linarith [ho3_lt]
  have hrc_pos : 0 < react_c_mols i := by
    rw [hreact_c]
    positivity
  have hrc_lt : react_c_mols i < mols_c i := by
    rw [hreact_c, div_lt_iff₀ (by norm_num : (0:ℚ) < 0.55)]
    linarith [ho3_lt]
  have hMC : (0 : ℚ) < M_C := by norm_num [M_C]
  have hm_c_pos : 0 < m_c_final i := by
    rw [m_c_final]
    have : 0 < mols_c i - react_c_mols i := by linarith
    positivity
  have hm_c_lt : m_c_final i < m_c_init i := by
    have hinit : m_c_init i = mols_c i * M_C / 1000 := by
      rw [mols_c]
      field_simp
    rw [m_c_final, hinit]
    have h1 : 0 < react_c_mols i * M_C / 1000 := by positivity
    ring_nf
    nlinarith [hrc_pos, hMC]
  refine ⟨hm_si, hm_ti, ?_, ?_, hreact_c, hrc_pos, hrc_lt, hm_c_pos, hm_c_lt⟩
  · rw [final_Si_pct, hm_si]
    simp
  · rw [final_Ti_pct, hm_ti]
    simp

/-- Closed witness for `equilibrium_waterfall` at the concrete charge
`eqCx`. -/
theorem equilibrium_waterfall_witness :
    0 < m_c_final eqCx ∧ m_c_final eqCx < m_c_init eqCx := by
  have hti : 0 ≤ mols_ti eqCx := by
    norm_num [mols_ti, m_ti_init, eqCx, M_TI]
  have hO : mols_si eqCx + mols_ti eqCx ≤ o2_mols_0 eqCx := by
    norm_num [mols_si, mols_ti, m_si_init, m_ti_init, o2_mols_0,
      total_o2_available_m3, total_oxygen_m3, vol_o2_ore, o2_from_ore_kg,
      eqCx, M_SI, M_TI]
  have ho3_pos : 0 < o2_mols_3 eqCx := by
    norm_num [o2_mols_3, o2_mols_2, o2_mols_1, o2_mols_0, react_v_mols,
      react_ti_mols, react_si_mols, mols_v, mols_ti, mols_si, m_v_init,
      m_ti_init, m_si_init, total_o2_available_m3, total_oxygen_m3,
      vol_o2_ore, o2_from_ore_kg, eqCx, M_SI, M_TI, M_V, min_def]
  have ho3_lt : o2_mols_3 eqCx < 0.55 * mols_c eqCx := by
    norm_num [o2_mols_3, o2_mols_2, o2_mols_1, o2_mols_0, react_v_mols,
      react_ti_mols, react_si_mols, mols_v, mols_ti, mols_si, m_v_init,
      m_ti_init, m_si_init, total_o2_available_m3, total_oxygen_m3,
      vol_o2_ore, o2_from_ore_kg, mols_c, m_c_init, eqCx, M_SI, M_TI, M_V,
      M_C, min_def]
  have h := equilibrium_waterfall eqCx hti hO ho3_pos ho3_lt
  exact ⟨h.2.2.2.2.2.2.2.1, h.2.2.2.2.2.2.2.2⟩

end Equilibrium

/- ## Kinetics derivative engine (backend/app/tools/kinetics_simulator.py)

The `np.exp` library call inside the logistic crossover is modelled as
an explicit function parameter `exp : ℚ → ℚ`; the only property of the
exponential the theorems use is strict positivity, which holds of the
real exponential at every argument. -/

namespace Kinetics

/-- `M_C` (g/mol). -/
def M_C : ℚ := 12.01

/-- `M_Si` (g/mol). -/
def M_Si : ℚ := 28.09

/-- `M_V` (g/mol). -/
def M_V : ℚ := 50.94

/-- `M_Ti` (g/mol). -/
def M_Ti : ℚ := 47.87

/-- `M_Fe` (g/mol). -/
def M_Fe : ℚ := 55.85

/-- `H_REACTION_C` (J/kg). -/
def H_REACTION_C : ℚ := 9000 * 1000

/-- `H_REACTION_SI` (J/kg). -/
def H_REACTION_SI : ℚ := 28000 * 1000

/-- `H_REACTION_TI` (J/kg). -/
def H_REACTION_TI : ℚ := 20000 * 1000

/-- `H_REACTION_V` (J/kg). -/
def H_REACTION_V : ℚ := 16000 * 1000

/-- `CP_STEEL` (J/kg/K). -/
def CP_STEEL : ℚ := 760

/-- The arguments of `calculate_kinetics_derivatives`: the state
vector `y = [C, Si, V, Ti, T_c, FeO, V2O5, SiO2]`, the time `t`, the
bath mass, the molar oxygen supply, the heat loss (default 200000 W)
and the stirring factor (default 1). -/
structure KinArgs where
  C : ℚ
  Si : ℚ
  V : ℚ
  Ti : ℚ
  T_c : ℚ
  FeO : ℚ
  V2O5 : ℚ
  SiO2 : ℚ
  t : ℚ
  bath_weight_kg : ℚ
  mols_o2_per_s : ℚ
  heat_loss_w : ℚ
  stirring_factor : ℚ
deriving DecidableEq, Repr

/-- `k_si_base = 0.003 * stirring_factor`. -/
def k_si_base (a : KinArgs) : ℚ := 0.003 * a.stirring_factor

/-- `k_ti_base = 0.003 * stirring_factor`. -/
def k_ti_base (a : KinArgs) : ℚ := 0.003 * a.stirring_factor

/-- `k_v_base = 0.002 * stirring_factor`. -/
def k_v_base (a : KinArgs) : ℚ := 0.002 * a.stirring_factor

/-- `k_c_base = 0.0005 * (0.5 + 0.5 * stirring_factor)`. -/
def k_c_base (a : KinArgs) : ℚ := 0.0005 * (0.5 + 0.5 * a.stirring_factor)

/-- `r_si = k_si_base * max(0, Si)`. -/
def r_si (a : KinArgs) : ℚ := k_si_base a * max 0 a.Si

/-- `r_ti = k_ti_base * max(0, Ti)`. -/
def r_ti (a : KinArgs) : ℚ := k_ti_base a * max 0 a.Ti

/-- `tc_transition`. -/
def tc_transition : ℚ := 1380

/-- `temp_factor = (T_c - 1380) / 50`. -/
def temp_factor (a : KinArgs) : ℚ := (a.T_c - tc_transition) / 50

/-- `sigmoid = 1 / (1 + exp(-temp_factor))`. -/
def sigmoid (exp : ℚ → ℚ) (a : KinArgs) : ℚ :=
  1 / (1 + exp (-(temp_factor a)))

/-- `r_v = k_v_base * max(0, V) * (1.5 - 1.0 * sigmoid)`. -/
def r_v (exp : ℚ → ℚ) (a : KinArgs) : ℚ :=
  k_v_base a * max 0 a.V * (1.5 - 1.0 * sigmoid exp a)

/-- `r_c = k_c_base * max(0, C) * (0.1 + 5.0 * sigmoid)`. -/
def r_c (exp : ℚ → ℚ) (a : KinArgs) : ℚ :=
  k_c_base a * max 0 a.C * (0.1 + 5.0 * sigmoid exp a)

/-- `r_fe = 0.001`, the background iron oxidation. -/
def r_fe : ℚ := 0.001

/-- Si oxygen demand (mol/s), 1 mol O2 per mol Si. -/
def demand_o2_si (a : KinArgs) : ℚ :=
  ((r_si a / 100) * a.bath_weight_kg / (M_Si / 1000)) * 1.0

/-- Ti oxygen demand (mol/s), 1 mol O2 per mol Ti. -/
def demand_o2_ti (a : KinArgs) : ℚ :=
  ((r_ti a / 100) * a.bath_weight_kg / (M_Ti / 1000)) * 1.0

/-- V oxygen demand (mol/s), 0.75 mol O2 per mol V. -/
def demand_o2_v (exp : ℚ → ℚ) (a : KinArgs) : ℚ :=
  ((r_v exp a / 100) * a.bath_weight_kg / (M_V / 1000)) * 0.75

/-- C oxygen demand (mol/s), 0.5 mol O2 per mol C. -/
def demand_o2_c (exp : ℚ → ℚ) (a : KinArgs) : ℚ :=
  ((r_c exp a / 100) * a.bath_weight_kg / (M_C / 1000)) * 0.5

/-- Fe oxygen demand (mol/s), 0.5 mol O2 per mol Fe. -/
def demand_o2_fe (a : KinArgs) : ℚ :=
  ((r_fe / 100) * a.bath_weight_kg / (M_Fe / 1000)) * 0.5

/-- `total_demand`, the sum of the five demands. -/
def total_demand (exp : ℚ → ℚ) (a : KinArgs) : ℚ :=
  demand_o2_si a + demand_o2_ti a + demand_o2_v exp a +
    demand_o2_c exp a + demand_o2_fe a

/-- The scaling `factor`: `supply/total_demand` when demand exceeds
supply, else 1. -/
def factor (exp : ℚ → ℚ) (a : KinArgs) : ℚ :=
  if a.mols_o2_per_s < total_demand exp a then
    a.mols_o2_per_s / total_demand exp a
  else 1

/-- `real_o2_si = demand_o2_si * factor`. -/
def real_o2_si (exp : ℚ → ℚ) (a : KinArgs) : ℚ := demand_o2_si a * factor exp a

/-- `real_o2_ti = demand_o2_ti * factor`. -/
def real_o2_ti (exp : ℚ → ℚ) (a : KinArgs) : ℚ := demand_o2_ti a * factor exp a

/-- `real_o2_v = demand_o2_v * factor`. -/
def real_o2_v (exp : ℚ → ℚ) (a : KinArgs) : ℚ := demand_o2_v exp a * factor exp a

/-- `real_o2_c = demand_o2_c * factor`. -/
def real_o2_c (exp : ℚ → ℚ) (a : KinArgs) : ℚ := demand_o2_c exp a * factor exp a

/-- `dSidt` (percent per second). -/
def dSidt (exp : ℚ → ℚ) (a : KinArgs) : ℚ :=
  -(real_o2_si exp a * 1.0 * M_Si / 1000) / a.bath_weight_kg * 100

/-- `dTidt`. -/
def dTidt (exp : ℚ → ℚ) (a : KinArgs) : ℚ :=
  -(real_o2_ti exp a * 1.0 * M_Ti / 1000) / a.bath_weight_kg * 100

/-- `dVdt`, 4/3 mol V per mol O2. -/
def dVdt (exp : ℚ → ℚ) (a : KinArgs) : ℚ :=
  -(real_o2_v exp a * (4/3) * M_V / 1000) / a.bath_weight_kg * 100

/-- `dCdt`, 2 mol C per mol O2. -/
def dCdt (exp : ℚ → ℚ) (a : KinArgs) : ℚ :=
  -(real_o2_c exp a * 2.0 * M_C / 1000) / a.bath_weight_kg * 100

/-- `m_dot_si`, reacted Si mass flow (kg/s). -/
def m_dot_si (exp : ℚ → ℚ) (a : KinArgs) : ℚ :=
  |dSidt exp a| / 100 * a.bath_weight_kg

/-- `m_dot_ti`. -/
def m_dot_ti (exp : ℚ → ℚ) (a : KinArgs) : ℚ :=
  |dTidt exp a| / 100 * a.bath_weight_kg

/-- `m_dot_v`. -/
def m_dot_v (exp : ℚ → ℚ) (a : KinArgs) : ℚ :=
  |dVdt exp a| / 100 * a.bath_weight_kg

/-- `m_dot_c`. -/
def m_dot_c (exp : ℚ → ℚ) (a : KinArgs) : ℚ :=
  |dCdt exp a| / 100 * a.bath_weight_kg

/-- `heat_gen`, total reaction heat (W). -/
def heat_gen (exp : ℚ → ℚ) (a : KinArgs) : ℚ :=
  m_dot_si exp a * H_REACTION_SI + m_dot_ti exp a * H_REACTION_TI +
    m_dot_v exp a * H_REACTION_V + m_dot_c exp a * H_REACTION_C

/-- `coolant_load`: 3 MW inside the first 300 s. -/
def coolant_load (a : KinArgs) : ℚ := if a.t < 300 then 3000000 else 0

/-- `net_heat = heat_gen - heat_loss_w - coolant_load`. -/
def net_heat (exp : ℚ → ℚ) (a : KinArgs) : ℚ :=
  heat_gen exp a - a.heat_loss_w - coolant_load a

/-- `dTdt = net_heat / (bath_weight_kg * CP_STEEL)`. -/
def dTdt (exp : ℚ → ℚ) (a : KinArgs) : ℚ :=
  net_heat exp a / (a.bath_weight_kg * CP_STEEL)

/-- `dFeOdt = 0.05`. -/
def dFeOdt : ℚ := 0.05

/-- `dV2O5dt = |dVdt| * 1.5`. -/
def dV2O5dt (exp : ℚ → ℚ) (a : KinArgs) : ℚ := |dVdt exp a| * 1.5

/-- `dSiO2dt = |dSidt| * 2.0`. -/
def dSiO2dt (exp : ℚ → ℚ) (a : KinArgs) : ℚ := |dSidt exp a| * 2.0

/-- `calculate_kinetics_derivatives`, the returned derivative
vector `[dCdt, dSidt, dVdt, dTidt, dTdt, dFeOdt, dV2O5dt, dSiO2dt]`. -/
def calculate_kinetics_derivatives (exp : ℚ → ℚ) (a : KinArgs) : List ℚ :=
  [dCdt exp a, dSidt exp a, dVdt exp a, dTidt exp a, dTdt exp a,
    dFeOdt, dV2O5dt exp a, dSiO2dt exp a]

/-- Claim C1: for every state vector, positive bath mass, nonnegative
oxygen supply and stirring factor in (0, 1], whenever the total oxygen
demand exceeds the supply, the factor is `supply/demand`, every
per-element consumption is its demand scaled by that factor, the five
scaled demands sum exactly to the supply, and the oxygen consumed by
the four tracked elements is at most the supplied mol/s. -/
theorem kinetics_oxygen_conservation (exp : ℚ → ℚ) (hexp : ∀ x, 0 < exp x)
    (a : KinArgs) (hbath : 0 < a.bath_weight_kg)
    (hstir0 : 0 < a.stirring_factor) (hstir1 : a.stirring_factor ≤ 1)
    (hsupply : 0 ≤ a.mols_o2_per_s)
    (hdem : a.mols_o2_per_s < total_demand exp a) :
    factor exp a = a.mols_o2_per_s / total_demand exp a ∧
    real_o2_si exp a + real_o2_ti exp a + real_o2_v exp a + real_o2_c exp a +
      demand_o2_fe a * factor exp a = a.mols_o2_per_s ∧
    real_o2_si exp a + real_o2_ti exp a + real_o2_v exp a + real_o2_c exp a ≤
      a.mols_o2_per_s := by
  have hfac : factor exp a = a.mols_o2_per_s / total_demand exp a := by
    rw [factor, if_pos hdem]
  have hsig_pos : 0 < sigmoid exp a := by
    rw [sigmoid]
    have := hexp (-(temp_factor a))
    positivity
  have hsig_lt : sigmoid exp a < 1 := by
    rw [sigmoid]
    rw [div_lt_one (by linarith [hexp (-(temp_factor a))])]
    linarith [hexp (-(temp_factor a))]
  have hMsi : (0:ℚ) < M_Si / 1000 := by norm_num [M_Si]
  have hMti : (0:ℚ) < M_Ti / 1000 := by norm_num [M_Ti]
  have hMv : (0:ℚ) < M_V / 1000 := by norm_num [M_V]
  have hMc : (0:ℚ) < M_C / 1000 := by norm_num [M_C]
  have hMfe : (0:ℚ) < M_Fe / 1000 := by norm_num [M_Fe]
  have hr_si : 0 ≤ r_si a := by
    rw [r_si, k_si_base]
    exact mul_nonneg (by nlinarith) (le_max_left 0 a.Si)
  have hr_ti : 0 ≤ r_ti a := by
    rw [r_ti, k_ti_base]
    exact mul_nonneg (by nlinarith) (le_max_left 0 a.Ti)
  have hr_v : 0 ≤ r_v exp a := by
    rw [r_v, k_v_base]
    have h1 : 0 ≤ (0.002 : ℚ) * a.stirring_factor * max 0 a.V :=
      mul_nonneg (by nlinarith) (le_max_left 0 a.V)
    nlinarith [hsig_lt]
  have hr_c : 0 ≤ r_c exp a := by
    rw [r_c, k_c_base]
    have h1 : 0 ≤ (0.0005 : ℚ) * (0.5 + 0.5 * a.stirring_factor) * max 0 a.C :=
      mul_nonneg (by nlinarith) (le_max_left 0 a.C)
    nlinarith [hsig_pos]
  have hd_si : 0 ≤ demand_o2_si a := by
    rw [demand_o2_si]
    have := div_nonneg (mul_nonneg (div_nonneg hr_si (by norm_num : (0:ℚ) ≤ 100)) hbath.le) hMsi.le
    linarith
  have hd_ti : 0 ≤ demand_o2_ti a := by
    rw [demand_o2_ti]
    have := div_nonneg (mul_nonneg (div_nonneg hr_ti (by norm_num : (0:ℚ) ≤ 100)) hbath.le) hMti.le
    linarith
  have hd_v : 0 ≤ demand_o2_v exp a := by
    rw [demand_o2_v]
    have := div_nonneg (mul_nonneg (div_nonneg hr_v (by norm_num : (0:ℚ) ≤ 100)) hbath.le) hMv.le
    nlinarith
  have hd_c : 0 ≤ demand_o2_c exp a := by
    rw [demand_o2_c]
    have := div_nonneg (mul_nonneg (div_nonneg hr_c (by norm_num : (0:ℚ) ≤ 100)) hbath.le) hMc.le
    nlinarith
  have hd_fe : 0 < demand_o2_fe a := by
    rw [demand_o2_fe, r_fe]
    positivity
  have htot_pos : 0 < total_demand exp a := by
    rw [total_demand]
    linarith
  have heq : real_o2_si exp a + real_o2_ti exp a + real_o2_v exp a +
      real_o2_c exp a + demand_o2_fe a * factor exp a = a.mols_o2_per_s := by
    rw [real_o2_si, real_o2_ti, real_o2_v, real_o2_c, hfac]
    have hT : total_demand exp a ≠ 0 := ne_of_gt htot_pos
    field_simp
    rw [total_demand]
    ring
  have hfac_nonneg : 0 ≤ factor exp a := by
    rw [hfac]
    exact div_nonneg hsupply htot_pos.le
  refine ⟨hfac, heq, ?_⟩
  have hfe_term : 0 ≤ demand_o2_fe a * factor exp a :=
    mul_nonneg hd_fe.le hfac_nonneg
  linarith

/-- The constant-one stand-in for `np.exp`, positive everywhere. -/
def expOne : ℚ → ℚ := fun _ => 1

/-- A concrete argument vector: empty melt chemistry, 1000 kg bath,
zero oxygen supply, unit stirring. -/
def kinA0 : KinArgs :=
  { C := 0, Si := 0, V := 0, Ti := 0, T_c := 1380, FeO := 5, V2O5 := 0
    SiO2 := 1, t := 0, bath_weight_kg := 1000, mols_o2_per_s := 0
    heat_loss_w := 200000, stirring_factor := 1 }

/-- Closed witness for `kinetics_oxygen_conservation`: at `kinA0` the
background Fe demand alone exceeds the zero supply, and the scaled
consumption of the four tracked elements is at most the supply. -/
theorem kinetics_oxygen_conservation_witness :
    kinA0.mols_o2_per_s < total_demand expOne kinA0 ∧
    real_o2_si expOne kinA0 + real_o2_ti expOne kinA0 +
      real_o2_v expOne kinA0 + real_o2_c expOne kinA0 ≤
        kinA0.mols_o2_per_s := by
  have hdem : kinA0.mols_o2_per_s < total_demand expOne kinA0 := by
    norm_num [total_demand, demand_o2_si, demand_o2_ti, demand_o2_v,
      demand_o2_c, demand_o2_fe, r_si, r_ti, r_v, r_c, r_fe, k_si_base,
      k_ti_base, k_v_base, k_c_base, sigmoid, temp_factor, tc_transition,
      expOne, kinA0, M_Si, M_Ti, M_V, M_C, M_Fe]
  refine ⟨hdem, ?_⟩
  exact (kinetics_oxygen_conservation expOne
    (fun x => by norm_num [expOne]) kinA0 (by norm_num [kinA0])
    (by norm_num [kinA0]) (by norm_num [kinA0]) (by norm_num [kinA0])
    hdem).2.2

end Kinetics

end VAgent
